import Mathlib

/-!
Verification of `semantic_model_generator/snowflake_utils/snowflake_connector.py`
against its natural-language specification.

The Python module is shallowly embedded below.  External effects (queries answered
by the warehouse, the process environment, the network driver) are passed in as
explicit oracle values; nondeterministic task-completion order of the thread pool
is passed in as an explicit permutation.  Fallible Python code is modelled with
`Option`/`Except`; every definition is executable.
-/

namespace SnowflakeConnector

/-- Modelled from the spec: the `Column` record of
`semantic_model_generator.data_processing.data_types` (that module is not part of
the given sources).  Field names and arity follow the keyword-argument constructor
call in `_get_column_representation`: `Column(id_=..., column_name=..., comment=...,
column_type=..., values=...)`; per spec §3 a Column carries its ordinal index, name,
comment, raw datatype string, and an optional ordered sequence of string samples. -/
structure Column where
  id_ : Nat
  column_name : String
  comment : String
  column_type : String
  values : Option (List String)
deriving Repr, DecidableEq

/-- Modelled from the spec: the `Table` record of
`semantic_model_generator.data_processing.data_types` (module not in the given
sources).  Field names follow the constructor call in `get_table_representation`:
`Table(id_=..., name=..., comment=..., columns=...)`. -/
structure Table where
  id_ : Nat
  name : String
  comment : String
  columns : List Column
deriving Repr, DecidableEq

/-- One row returned by the sampling query's `DictCursor`: Python-side it is either
a `dict` (name-keyed record, modelled as an association list with string values,
the `str(...)` cast being applied downstream) or some other shape. -/
inductive SRow where
  | dict (kvs : List (String × String))
  | nondict
deriving Repr, DecidableEq

/-- Outcome of running the sampling query on the warehouse: the driver either
raises (any exception: permission denied, bad column, driver error, a `None`
cursor failing the `assert`) or returns the fetched rows. -/
inductive QueryOutcome where
  | err
  | ok (rows : List SRow)
deriving Repr, DecidableEq

/-- `[str(r[col_key]) for r in res]`: look `col_key` up in every row; a row that
is not a dict (`TypeError`) or lacks the key (`KeyError`) makes the whole
comprehension raise, which the enclosing `try` turns into `none`. -/
def extractKey (col_key : String) : List SRow → Option (List String)
  | [] => some []
  | .dict kvs :: rest =>
    match kvs.lookup col_key with
    | some v => (extractKey col_key rest).map (fun vs => v :: vs)
    | none => none
  | .nondict :: _ => none

/-- The body of the `try` in `_get_column_representation` lines 130-151: run the
sampling query; on zero rows `column_values` stays `None`; otherwise the first
row must be a dict (else a `ValueError` is raised and caught), its first key is
taken as `col_key`, and every row's value at `col_key` is collected; any raised
exception is caught and logged, leaving `column_values = None`. -/
def sampleValues (outcome : QueryOutcome) : Option (List String) :=
  match outcome with
  | .err => none
  | .ok [] => none
  | .ok (first :: rest) =>
    match first with
    | .nondict => none
    | .dict kvs =>
      match kvs.head? with
      | none => none
      | some (k, _) => extractKey k (.dict kvs :: rest)

/-- The sampling SQL text issued when `ndv > 0`:
`select distinct "<col>" from "<schema>"."<table>" limit <ndv>`. -/
def sampleQuery (schema_name table_name column_name : String) (ndv : Int) : String :=
  "select distinct \"" ++ column_name ++ "\" from \"" ++ schema_name ++ "\".\""
    ++ table_name ++ "\" limit " ++ toString ndv

/-- `_get_column_representation`: returns the built `Column` together with the
list of queries issued against the connection (empty when `ndv <= 0`, since the
whole cursor/execute block is guarded by `if ndv > 0`).  `queryResult` is the
warehouse's answer to the sampling query. -/
def getColumnRepresentation (queryResult : QueryOutcome)
    (schema_name table_name column_name column_comment : String)
    (column_index : Nat) (column_datatype : String) (ndv : Int) :
    Column × List String :=
  let column_values : Option (List String) :=
    if ndv > 0 then sampleValues queryResult else none
  let issued : List String :=
    if ndv > 0 then [sampleQuery schema_name table_name column_name ndv] else []
  (⟨column_index, column_name, column_comment, column_datatype, column_values⟩, issued)

/-- One row of the per-table `columns_df` passed to `get_table_representation`,
carrying the fields the function reads: `COLUMN_NAME`, `COLUMN_COMMENT`,
`DATA_TYPE` and `TABLE_COMMENT`. -/
structure ColRow where
  columnName : String
  columnComment : String
  dataType : String
  tableComment : String
deriving Repr, DecidableEq

/-- The closure `_get_col` of `get_table_representation`: sample one column of the
table, keeping only the built `Column`.  `oracle` answers the sampling query for a
given column name (schema and table are fixed within one call). -/
def getCol (oracle : String → QueryOutcome) (schema_name table_name : String)
    (ndv : Int) (col_index : Nat) (row : ColRow) : Column :=
  (getColumnRepresentation (oracle row.columnName) schema_name table_name
    row.columnName row.columnComment col_index row.dataType ndv).1

/-- Key comparison used to model Python's stable `sorted(index_and_column,
key=lambda x: x[0])`. -/
def keyLE {α : Type} (a b : Nat × α) : Prop := a.1 ≤ b.1

instance {α : Type} : DecidableRel (keyLE (α := α)) := fun a b => by
  unfold keyLE; infer_instance

instance {α : Type} : IsTotal (Nat × α) keyLE := ⟨fun a b => Nat.le_total a.1 b.1⟩

instance {α : Type} : IsTrans (Nat × α) keyLE := ⟨fun _ _ _ h h' => Nat.le_trans h h'⟩

/-- Strict version of `keyLE`, used to state that the collected indices are
pairwise distinct and increasing. -/
def keyLt {α : Type} (a b : Nat × α) : Prop := a.1 < b.1

/-- `get_table_representation`: the tasks `(col_index, column_row)` are submitted
for every enumerated row of `columns_df`; `as_completed` hands the futures back in
a nondeterministic order, modelled by `completion`, a permutation of
`columns_df.iterrows()`'s enumeration; the collected `(index, column)` pairs are
then sorted by index (Python's stable sort) and the `Table` is built.  Returns
`none` on the two raising paths: `columns_df[_TABLE_COMMENT_COL].iloc[0]` raises
on an empty frame, and `ThreadPoolExecutor(max_workers=0)` raises `ValueError`. -/
def getTableRepresentation (oracle : String → QueryOutcome)
    (schema_name table_name : String) (table_index : Nat) (ndv_per_column : Int)
    (rows : List ColRow) (max_workers : Nat)
    (completion : List (Nat × ColRow)) : Option Table :=
  match rows with
  | [] => none
  | r0 :: _ =>
    if max_workers = 0 then none
    else
      let table_comment := r0.tableComment
      let index_and_column : List (Nat × Column) :=
        completion.map fun p =>
          (p.1, getCol oracle schema_name table_name ndv_per_column p.1 p.2)
      let columns := (index_and_column.insertionSort keyLE).map Prod.snd
      some ⟨table_index, table_name, table_comment, columns⟩

/-! ### Metadata query layer -/

/-- Python truthiness of an `Optional[str]`: `None` and the empty string are falsy. -/
def truthyStr : Option String → Bool
  | none => false
  | some s => !(s == "")

/-- Python truthiness of an `Optional[List[str]]`: `None` and the empty list are falsy. -/
def truthyList : Option (List String) → Bool
  | none => false
  | some l => !l.isEmpty

/-- The `where_clause` built by `get_valid_schemas_tables_columns_df`: present only
when `table_schema` is truthy; the table-name restriction is added only inside that
branch, so names without a schema are ignored. -/
def buildWhereClause (table_schema : Option String) (table_names : Option (List String)) :
    String :=
  if truthyStr table_schema then
    let base := " where t.table_schema ilike '" ++ table_schema.getD "" ++ "' "
    if truthyList table_names then
      let table_names_str :=
        ", ".intercalate ((table_names.getD []).map fun t => "'" ++ t.toLower ++ "'")
      base ++ "AND LOWER(t.table_name) in (" ++ table_names_str ++ ") "
    else base
  else ""

/-- The catalog SQL issued by `get_valid_schemas_tables_columns_df` (the f-string
at lines 200-203 with the column-name constants substituted). -/
def buildCatalogQuery (table_schema : Option String) (table_names : Option (List String)) :
    String :=
  "select t.TABLE_SCHEMA, t.TABLE_NAME, c.COLUMN_NAME, c.DATA_TYPE, c.COMMENT as COLUMN_COMMENT\n"
    ++ "from information_schema.tables as t\n"
    ++ "join information_schema.columns as c on t.table_schema = c.table_schema and t.table_name = c.table_name"
    ++ buildWhereClause table_schema table_names
    ++ "\norder by 1, 2, c.ordinal_position"

/-- Whether the call logs the warning `Provided table_name without table_schema,
cannot filter to fetch the specific table` (line 189's condition). -/
def warnsOnNamesWithoutSchema (table_schema : Option String)
    (table_names : Option (List String)) : Bool :=
  truthyList table_names && !truthyStr table_schema

/-- One row of the information-schema join result (`schemas_tables_columns_df`).
`ordinalPosition` is the catalog's `ordinal_position` of the column: the query
orders by it but does not select it, so it is carried here as ghost data to state
ordering properties about the warehouse's answer. -/
structure CatRow where
  tableSchema : String
  tableName : String
  columnName : String
  dataType : String
  columnComment : String
  ordinalPosition : Nat
deriving Repr, DecidableEq

/-- One row of `_fetch_valid_tables_and_views`'s output after the rename:
`name -> TABLE_NAME`, `schema_name -> TABLE_SCHEMA`, `comment -> TABLE_COMMENT`. -/
structure TVRow where
  tableName : String
  tableSchema : String
  tableComment : String
deriving Repr, DecidableEq

/-- `_fetch_valid_tables_and_views`: `pd.concat([tables, views], axis=0)` with
`tables` the renamed result of `show tables in database` and `views` of
`show views in database`. -/
def fetchValidTablesAndViews (tables views : List TVRow) : List TVRow :=
  tables ++ views

/-- A row of the merged frame returned by `get_valid_schemas_tables_columns_df`:
the key columns plus `TABLE_COMMENT` from the left frame and the column fields
from the right frame (`ordinalPosition` again ghost). -/
structure MergedRow where
  tableSchema : String
  tableName : String
  tableComment : String
  columnName : String
  dataType : String
  columnComment : String
  ordinalPosition : Nat
deriving Repr, DecidableEq

/-- `pandas.DataFrame.merge(..., how="inner", on=(TABLE_SCHEMA, TABLE_NAME))` with
the live-object listing on the left: for an inner join pandas emits, for each left
row in left order, the matching right rows in right order. -/
def mergeInner (left : List TVRow) (right : List CatRow) : List MergedRow :=
  left.flatMap fun l =>
    (right.filter fun r =>
        r.tableSchema == l.tableSchema && r.tableName == l.tableName).map
      fun r =>
        ⟨l.tableSchema, l.tableName, l.tableComment,
         r.columnName, r.dataType, r.columnComment, r.ordinalPosition⟩

/-- `get_valid_schemas_tables_columns_df`: build the catalog query, let the
warehouse answer it (`catalog` is the warehouse oracle from SQL text to rows),
list live tables and views, and inner-join the live listing against the catalog
answer.  Also returns whether the degraded-filter warning was logged. -/
def getValidSchemasTablesColumnsDf (catalog : String → List CatRow)
    (tables views : List TVRow) (table_schema : Option String)
    (table_names : Option (List String)) : List MergedRow × Bool :=
  let schemas_tables_columns := catalog (buildCatalogQuery table_schema table_names)
  let valid := fetchValidTablesAndViews tables views
  (mergeInner valid schemas_tables_columns,
   warnsOnNamesWithoutSchema table_schema table_names)

/-- Strict lexicographic order on strings by their character lists; by
`String.lt_iff` this is exactly `String.lt`, but stated on `.data` so the kernel
can evaluate it on literals. -/
def strLt (a b : String) : Prop := @LT.lt (List Char) List.instLT a.data b.data

instance : DecidableRel strLt := fun a b => by
  unfold strLt; exact List.hasDecidableLt _ _

/-- Lexicographic "schema, then table, then ordinal position" order on merged rows,
the order the spec asserts for the returned row-set. -/
def catalogLE (a b : MergedRow) : Prop :=
  strLt a.tableSchema b.tableSchema
    ∨ (a.tableSchema = b.tableSchema
        ∧ (strLt a.tableName b.tableName
            ∨ (a.tableName = b.tableName ∧ a.ordinalPosition ≤ b.ordinalPosition)))

instance : DecidableRel catalogLE := fun a b => by
  unfold catalogLE; infer_instance

/-- The analogous order on the catalog answer itself (what `order by 1, 2,
c.ordinal_position` guarantees for `schemas_tables_columns_df`). -/
def catRowLE (a b : CatRow) : Prop :=
  strLt a.tableSchema b.tableSchema
    ∨ (a.tableSchema = b.tableSchema
        ∧ (strLt a.tableName b.tableName
            ∨ (a.tableName = b.tableName ∧ a.ordinalPosition ≤ b.ordinalPosition)))

instance : DecidableRel catRowLE := fun a b => by
  unfold catRowLE; infer_instance

/-! ### Connection manager -/

/-- The process environment the `_get_*` credential accessors read
(`env_vars.SNOWFLAKE_ROLE` and friends); `none` models an unset variable. -/
structure EnvVars where
  snowflakeRole : Option String
  snowflakeUser : Option String
  snowflakePassword : Option String
  snowflakeWarehouse : Option String
  snowflakeHost : Option String
deriving Repr, DecidableEq

def roleErrMsg : String :=
  "You need to set an env var for the snowflake role. export SNOWFLAKE_ROLE=<your-snowflake-role>"

def userErrMsg : String :=
  "You need to set an env var for the snowflake user. export SNOWFLAKE_USER=<your-snowflake-user>"

def passwordErrMsg : String :=
  "You need to set an env var for the snowflake password. export SNOWFLAKE_PASSWORD=<your-snowflake-password>"

def warehouseErrMsg : String :=
  "You need to set an env var for the snowflake warehouse. export SNOWFLAKE_WAREHOUSE=<your-snowflake-warehouse-name>"

/-- `SnowflakeConnector._get_role`: `if not role: raise ValueError(...)`. -/
def getRole (e : EnvVars) : Except String String :=
  if truthyStr e.snowflakeRole then .ok (e.snowflakeRole.getD "") else .error roleErrMsg

/-- `SnowflakeConnector._get_user`. -/
def getUser (e : EnvVars) : Except String String :=
  if truthyStr e.snowflakeUser then .ok (e.snowflakeUser.getD "") else .error userErrMsg

/-- `SnowflakeConnector._get_password`. -/
def getPassword (e : EnvVars) : Except String String :=
  if truthyStr e.snowflakePassword then .ok (e.snowflakePassword.getD "")
  else .error passwordErrMsg

/-- `SnowflakeConnector._get_warehouse`. -/
def getWarehouse (e : EnvVars) : Except String String :=
  if truthyStr e.snowflakeWarehouse then .ok (e.snowflakeWarehouse.getD "")
  else .error warehouseErrMsg

/-- `SnowflakeConnector._get_host`: never fails, only logs when unset. -/
def getHost (e : EnvVars) : Option String :=
  e.snowflakeHost

/-- Behaviour of the network driver during `_open_connection`: whether
`snowflake_connection(...)` itself succeeds and whether each session-setup
statement (`USE DATABASE`, `USE SCHEMA`, the two `ALTER SESSION`s) succeeds. -/
structure DriverEnv where
  sessionOk : Bool
  useDbOk : Bool
  useSchemaOk : Bool
  queryTagOk : Bool
  timeoutOk : Bool
deriving Repr, DecidableEq

/-- Errors escaping `_open_connection`. -/
inductive OpenErr where
  /-- `ValueError` from a `_get_*` credential accessor, carrying its message. -/
  | config (msg : String)
  /-- `snowflake_connection(...)` itself raised: no session was established. -/
  | connectFailed
  /-- `ValueError` "Could not connect to database ..." wrapping a `USE DATABASE` failure. -/
  | dbError (db : String)
  /-- `ValueError` "Could not connect to schema ..." wrapping a `USE SCHEMA` failure. -/
  | schemaError (schema : String)
  /-- An unwrapped driver error from one of the `ALTER SESSION` statements. -/
  | sessionSetupError
deriving Repr, DecidableEq

/-- `SnowflakeConnector._open_connection`: resolve credentials (Python evaluates
the `snowflake_connection(...)` arguments in source order: user, password,
account, role, warehouse, host), establish the session, then issue `USE
DATABASE`, optional `USE SCHEMA`, the query-tag and the statement-timeout
`ALTER SESSION`s.  The second component records whether a network session was
established (i.e. whether `snowflake_connection` returned). -/
def openConnection (e : EnvVars) (drv : DriverEnv) (db_name : String)
    (schema_name : Option String) : Except OpenErr Unit × Bool :=
  match getUser e with
  | .error m => (.error (.config m), false)
  | .ok _ =>
    match getPassword e with
    | .error m => (.error (.config m), false)
    | .ok _ =>
      match getRole e with
      | .error m => (.error (.config m), false)
      | .ok _ =>
        match getWarehouse e with
        | .error m => (.error (.config m), false)
        | .ok _ =>
          if !drv.sessionOk then (.error .connectFailed, false)
          else if db_name ≠ "" && !drv.useDbOk then (.error (.dbError db_name), true)
          else if truthyStr schema_name && !drv.useSchemaOk then
            (.error (.schemaError (schema_name.getD "")), true)
          else if !drv.queryTagOk then (.error .sessionSetupError, true)
          else if !drv.timeoutOk then (.error .sessionSetupError, true)
          else (.ok (), true)

/-- Errors escaping the `connect` context manager. -/
inductive ConnectErr where
  | openErr (e : OpenErr)
  /-- an exception raised by the `with`-body. -/
  | bodyErr
deriving Repr, DecidableEq

/-- Observable outcome of one use of `SnowflakeConnector.connect`:
the result, whether a network session was established, and whether it was
closed before `connect` returned or propagated. -/
structure ConnectResult where
  outcome : Except ConnectErr Unit
  opened : Bool
  closed : Bool
deriving Repr

/-- `SnowflakeConnector.connect`: `conn = None; try: conn = _open_connection(...);
yield conn; finally: if conn is not None: _close_connection(conn)`.  When
`_open_connection` raises, `conn` is still `None`, so the `finally` closes
nothing; when it returns, the body runs (`bodyOk` says whether it raises) and the
`finally` always closes. -/
def connect (e : EnvVars) (drv : DriverEnv) (db_name : String)
    (schema_name : Option String) (bodyOk : Bool) : ConnectResult :=
  match openConnection e drv db_name schema_name with
  | (.error err, opened) => ⟨.error (.openErr err), opened, false⟩
  | (.ok _, opened) =>
    ⟨if bodyOk then .ok () else .error .bodyErr, opened, true⟩

/-! ### Generic query executor -/

/-- One row fetched by `execute`'s `DictCursor`: a name-keyed record (dict) or
some other shape (values are modelled as strings). -/
inductive ERow where
  | dict (kvs : List (String × String))
  | nondict
deriving Repr, DecidableEq

/-- What running one SQL statement on the driver does: succeed with rows, raise a
`ProgrammingError` (the driver's syntax/semantic error), or raise any other
exception kind. -/
inductive ExecOutcome where
  | ok (rows : List ERow)
  | failProgramming (msg : String)
  | failOther (msg : String)
deriving Repr, DecidableEq

/-- Errors escaping `SnowflakeConnector.execute`. -/
inductive ExecErr where
  /-- `ValueError(f"Query Error: {e}")` wrapping a `ProgrammingError`. -/
  | queryError (msg : String)
  /-- `ValueError("Expected a dict for row object. ...")`: a result row was not a dict. -/
  | dataShape
  /-- Uncaught `ValueError` from `_get_warehouse` (not a `ProgrammingError`). -/
  | config (msg : String)
  /-- Any non-`ProgrammingError` driver exception: not caught, propagates unwrapped. -/
  | driverOther (msg : String)
deriving Repr, DecidableEq

/-- `out_dict[k].append(v)` on a `defaultdict(list)` (Python dicts keep insertion
order): append to the entry for `k`, creating it at the end when absent. -/
def insertAppend : List (String × List String) → String → String → List (String × List String)
  | [], k, v => [(k, [v])]
  | (k', vs) :: rest, k, v =>
    if k' == k then (k', vs ++ [v]) :: rest else (k', vs) :: insertAppend rest k v

/-- `for k, v in row.items(): out_dict[k].append(v)`. -/
def addRow (acc : List (String × List String)) (kvs : List (String × String)) :
    List (String × List String) :=
  kvs.foldl (fun a kv => insertAppend a kv.1 kv.2) acc

/-- One iteration of `execute`'s accumulation loop: a dict row is folded into the
`defaultdict`, any other row raises the data-shape `ValueError` at that point. -/
def accumStep (acc : List (String × List String)) (row : ERow) :
    Except ExecErr (List (String × List String)) :=
  match row with
  | .dict kvs => .ok (addRow acc kvs)
  | .nondict => .error .dataShape

/-- The accumulation loop of `execute` (lines 351-359). -/
def accumRows (rows : List ERow) : Except ExecErr (List (String × List String)) :=
  rows.foldlM accumStep []

/-- A result row that is a dict with pairwise-distinct keys (what a `DictCursor`
actually yields: Python dict keys are unique). -/
def goodRow : ERow → Bool
  | .dict kvs => decide (kvs.map Prod.fst).Nodup
  | .nondict => false

/-- Propagate one driver statement's failure the way `execute`'s
`try/except ProgrammingError` does: only `ProgrammingError` is wrapped as
`ValueError(f"Query Error: {e}")`; every other exception kind escapes as itself. -/
def liftDriverFailure (o : ExecOutcome) : Except ExecErr (List ERow) :=
  match o with
  | .ok rows => .ok rows
  | .failProgramming m => .error (.queryError ("Query Error: " ++ m))
  | .failOther m => .error (.driverOther m)

/-- `SnowflakeConnector.execute`: if the connection has no warehouse, resolve the
configured default (its `ValueError` is not a `ProgrammingError`, hence uncaught)
and run `use warehouse <w.replace("-", "_")>`; then run `query` on a `DictCursor`
and fold the fetched rows into a column-name-to-values mapping.  `driver` is the
warehouse oracle from SQL text to outcome; `connWarehouse` is
`connection.warehouse`. -/
def execute (driver : String → ExecOutcome) (e : EnvVars)
    (connWarehouse : Option String) (query : String) :
    Except ExecErr (List (String × List String)) := do
  match connWarehouse with
  | none =>
    match getWarehouse e with
    | .error m => throw (.config m)
    | .ok w =>
      let _ ← liftDriverFailure (driver ("use warehouse " ++ w.replace "-" "_"))
  | some _ => pure ()
  let result ← liftDriverFailure (driver query)
  accumRows result

/-- The ordered sequence of values `execute` is specified to return for column
`k`: row order preserved, one value per row that carries `k`. -/
def expectedColumn (rows : List ERow) (k : String) : List String :=
  rows.filterMap fun row =>
    match row with
    | .dict kvs => kvs.lookup k
    | .nondict => none

/-- Whether an `execute` result is the `QueryError` (`ValueError("Query Error: ...")`)
failure the spec describes. -/
def isQueryError : Except ExecErr (List (String × List String)) → Bool
  | .error (.queryError _) => true
  | _ => false

/-! ### Theorems -/

/-- Claim C7: for every `sample_size` (`ndv`) `<= 0`, including all negative
values, `_get_column_representation` issues no query against the connection and
the resulting `Column` has an absent sample sequence, while its name, comment,
index and datatype are still populated from the input row. -/
theorem c7_nonpositive_ndv_issues_no_query (queryResult : QueryOutcome)
    (s t name comment : String) (idx : Nat) (dt : String) (ndv : Int)
    (h : ndv ≤ 0) :
    getColumnRepresentation queryResult s t name comment idx dt ndv =
      (⟨idx, name, comment, dt, none⟩, []) := by
  have hnot : ¬ ndv > 0 := by omega
  simp [getColumnRepresentation, hnot]

/-- Witness for C7 at a concrete negative `ndv`. -/
theorem c7_nonpositive_ndv_issues_no_query_witness :
    (-5 : Int) ≤ 0 ∧
      getColumnRepresentation .err "MYSCHEMA" "MYTABLE" "COL" "a comment" 3 "TEXT" (-5) =
        (⟨3, "COL", "a comment", "TEXT", none⟩, []) :=
  ⟨by decide,
   c7_nonpositive_ndv_issues_no_query .err "MYSCHEMA" "MYTABLE" "COL" "a comment" 3 "TEXT"
     (-5) (by decide)⟩

/-- Claim C10: with `ndv > 0`, a successful sampling query returning zero rows
leaves the `values` field `none`, exactly as when sampling is disabled
(`ndv <= 0`) or fails; and `values` is a list only when the query succeeded with
at least one row, so an empty-but-successful sample is indistinguishable from a
failed or disabled one. -/
theorem c10_empty_sample_indistinguishable (s t name comment : String)
    (idx : Nat) (dt : String) (ndv : Int) (h : 0 < ndv) :
    (getColumnRepresentation (.ok []) s t name comment idx dt ndv).1.values = none
  ∧ (getColumnRepresentation .err s t name comment idx dt ndv).1.values = none
  ∧ (∀ ndv' : Int, ndv' ≤ 0 →
      (getColumnRepresentation (.ok []) s t name comment idx dt ndv').1.values = none)
  ∧ (∀ (outcome : QueryOutcome) (vs : List String),
      (getColumnRepresentation outcome s t name comment idx dt ndv).1.values = some vs →
        ∃ first rest, outcome = QueryOutcome.ok (first :: rest)) := by
  refine ⟨by simp [getColumnRepresentation, h, sampleValues],
          by simp [getColumnRepresentation, h, sampleValues],
          fun ndv' h' => by
            have : ¬ ndv' > 0 := by omega
            simp [getColumnRepresentation, this],
          fun outcome vs hvs => ?_⟩
  match outcome with
  | .err => simp [getColumnRepresentation, h, sampleValues] at hvs
  | .ok [] => simp [getColumnRepresentation, h, sampleValues] at hvs
  | .ok (first :: rest) => exact ⟨first, rest, rfl⟩

/-- Witness for C10 at `ndv = 2`. -/
theorem c10_empty_sample_indistinguishable_witness :
    (0 : Int) < 2 ∧
      (getColumnRepresentation (.ok []) "S" "T" "C" "cm" 0 "TEXT" 2).1.values = none :=
  ⟨by decide, (c10_empty_sample_indistinguishable "S" "T" "C" "cm" 0 "TEXT" 2 (by decide)).1⟩

/-- Claim C8: calling `get_valid_schemas_tables_columns_df` with a non-empty
`table_names` list but no `table_schema` logs the warning and ignores the
table-name filter entirely: the catalog query issued is identical to the
no-filter query, hence so is the returned row-set, and the call does not fail. -/
theorem c8_names_without_schema_ignored (table_names : List String)
    (h : table_names ≠ []) :
    buildCatalogQuery none (some table_names) = buildCatalogQuery none none
  ∧ warnsOnNamesWithoutSchema none (some table_names) = true
  ∧ ∀ (catalog : String → List CatRow) (tables views : List TVRow),
      (getValidSchemasTablesColumnsDf catalog tables views none (some table_names)).1 =
        (getValidSchemasTablesColumnsDf catalog tables views none none).1 := by
  refine ⟨by simp [buildCatalogQuery, buildWhereClause, truthyStr], ?_, ?_⟩
  · simp [warnsOnNamesWithoutSchema, truthyList, truthyStr, h]
  · intro catalog tables views
    simp [getValidSchemasTablesColumnsDf, buildCatalogQuery, buildWhereClause, truthyStr]

/-- Witness for C8 with a concrete one-element name list. -/
theorem c8_names_without_schema_ignored_witness :
    (["ORDERS"] : List String) ≠ [] ∧
      warnsOnNamesWithoutSchema none (some ["ORDERS"]) = true :=
  ⟨by decide, (c8_names_without_schema_ignored ["ORDERS"] (by decide)).2.1⟩

/-- Claim C6: a (schema, table) pair absent from the live object listing (tables
concatenated with views) never appears in the row-set returned by
`get_valid_schemas_tables_columns_df`; moreover every returned row's key occurs
in both inputs of the inner join. -/
theorem c6_inner_join_excludes_stale (catalog : String → List CatRow)
    (tables views : List TVRow) (ts : Option String) (tn : Option (List String))
    (s t : String)
    (habs : ∀ l ∈ fetchValidTablesAndViews tables views,
      ¬(l.tableSchema = s ∧ l.tableName = t)) :
    (∀ m ∈ (getValidSchemasTablesColumnsDf catalog tables views ts tn).1,
      ¬(m.tableSchema = s ∧ m.tableName = t))
  ∧ (∀ m ∈ (getValidSchemasTablesColumnsDf catalog tables views ts tn).1,
      (∃ l ∈ fetchValidTablesAndViews tables views,
          l.tableSchema = m.tableSchema ∧ l.tableName = m.tableName)
    ∧ (∃ r ∈ catalog (buildCatalogQuery ts tn),
          r.tableSchema = m.tableSchema ∧ r.tableName = m.tableName)) := by
  constructor
  · rintro m hm ⟨hs, ht⟩
    simp only [getValidSchemasTablesColumnsDf, mergeInner, List.mem_flatMap,
      List.mem_map, List.mem_filter] at hm
    obtain ⟨l, hl, r, _, rfl⟩ := hm
    exact habs l hl ⟨hs, ht⟩
  · intro m hm
    simp only [getValidSchemasTablesColumnsDf, mergeInner, List.mem_flatMap,
      List.mem_map, List.mem_filter] at hm
    obtain ⟨l, hl, r, hr, rfl⟩ := hm
    refine ⟨⟨l, hl, rfl, rfl⟩, ⟨r, hr.1, ?_, ?_⟩⟩
    · exact eq_of_beq (Bool.and_eq_true _ _ ▸ hr.2).1
    · exact eq_of_beq (Bool.and_eq_true _ _ ▸ hr.2).2

/-- Witness for C6: a stale catalog entry `(S1, GHOST)` with no live object is
excluded from a concrete merged result. -/
theorem c6_inner_join_excludes_stale_witness :
    (∀ l ∈ fetchValidTablesAndViews [⟨"T1", "S1", "tc"⟩] [],
      ¬(l.tableSchema = "S1" ∧ l.tableName = "GHOST"))
  ∧ ∀ m ∈ (getValidSchemasTablesColumnsDf
        (fun _ => [⟨"S1", "T1", "C1", "TEXT", "", 1⟩, ⟨"S1", "GHOST", "C9", "TEXT", "", 1⟩])
        [⟨"T1", "S1", "tc"⟩] [] none none).1,
      ¬(m.tableSchema = "S1" ∧ m.tableName = "GHOST") :=
  ⟨by decide,
   (c6_inner_join_excludes_stale
     (fun _ => [⟨"S1", "T1", "C1", "TEXT", "", 1⟩, ⟨"S1", "GHOST", "C9", "TEXT", "", 1⟩])
     [⟨"T1", "S1", "tc"⟩] [] none none "S1" "GHOST" (by decide)).1⟩

/-- Claim C9: if any one of the four mandatory credentials (role, user,
password, warehouse) resolves to empty or unset at connection open, the open
fails with a configuration error whose message names that variable and no
network session is opened; with all four present, credential resolution
succeeds (no configuration error) and connection open proceeds.  The order of
the first four conjuncts mirrors Python's argument evaluation order in
`snowflake_connection(...)`: user, password, role, warehouse. -/
theorem c9_missing_credential_named (e : EnvVars) (drv : DriverEnv) (db : String)
    (schema : Option String) :
    (truthyStr e.snowflakeUser = false →
        openConnection e drv db schema = (.error (.config userErrMsg), false))
  ∧ (truthyStr e.snowflakeUser = true → truthyStr e.snowflakePassword = false →
        openConnection e drv db schema = (.error (.config passwordErrMsg), false))
  ∧ (truthyStr e.snowflakeUser = true → truthyStr e.snowflakePassword = true →
      truthyStr e.snowflakeRole = false →
        openConnection e drv db schema = (.error (.config roleErrMsg), false))
  ∧ (truthyStr e.snowflakeUser = true → truthyStr e.snowflakePassword = true →
      truthyStr e.snowflakeRole = true → truthyStr e.snowflakeWarehouse = false →
        openConnection e drv db schema = (.error (.config warehouseErrMsg), false))
  ∧ (truthyStr e.snowflakeUser = true → truthyStr e.snowflakePassword = true →
      truthyStr e.snowflakeRole = true → truthyStr e.snowflakeWarehouse = true →
        (∀ m, (openConnection e drv db schema).1 ≠ .error (.config m))
      ∧ (drv.sessionOk = true → (openConnection e drv db schema).2 = true)) := by
  refine ⟨fun hu => ?_, fun hu hp => ?_, fun hu hp hr => ?_, fun hu hp hr hw => ?_,
    fun hu hp hr hw => ?_⟩
  · simp [openConnection, getUser, hu]
  · simp [openConnection, getUser, getPassword, hu, hp]
  · simp [openConnection, getUser, getPassword, getRole, hu, hp, hr]
  · simp [openConnection, getUser, getPassword, getRole, getWarehouse, hu, hp, hr, hw]
  · simp only [openConnection, getUser, getPassword, getRole, getWarehouse, hu, hp, hr, hw,
      if_true]
    constructor
    · intro m
      split
      · simp
      · split
        · simp
        · split
          · simp
          · split
            · simp
            · split <;> simp
    · intro hs
      split
      · simp_all
      · split
        · simp
        · split
          · simp
          · split
            · simp
            · split <;> simp

/-- Witness for C9: a concrete environment with only the role unset fails naming
`SNOWFLAKE_ROLE` without opening a session; the same environment with the role
set proceeds to an established session. -/
theorem c9_missing_credential_named_witness :
    openConnection ⟨none, some "u", some "p", some "w", none⟩
        ⟨true, true, true, true, true⟩ "DB" none = (.error (.config roleErrMsg), false)
  ∧ (openConnection ⟨some "r", some "u", some "p", some "w", none⟩
        ⟨true, true, true, true, true⟩ "DB" none).2 = true :=
  ⟨(c9_missing_credential_named ⟨none, some "u", some "p", some "w", none⟩
      ⟨true, true, true, true, true⟩ "DB" none).2.2.1 (by decide) (by decide) (by decide),
   ((c9_missing_credential_named ⟨some "r", some "u", some "p", some "w", none⟩
      ⟨true, true, true, true, true⟩ "DB" none).2.2.2.2 (by decide) (by decide) (by decide)
      (by decide)).2 (by decide)⟩

/-- Claim C4 as stated is false: when `USE DATABASE` fails during
`_open_connection`, the network session has been established but `connect`'s
`finally` sees `conn = None` and closes nothing, so the session is not closed
before the exception propagates. -/
theorem c4_counterexample_session_leak :
    (connect ⟨some "r", some "u", some "p", some "w", none⟩
        ⟨true, false, true, true, true⟩ "MYDB" none true).opened = true
  ∧ (connect ⟨some "r", some "u", some "p", some "w", none⟩
        ⟨true, false, true, true, true⟩ "MYDB" none true).closed = false :=
  ⟨rfl, rfl⟩

/-- Claim C4 amended: the session is closed before `connect` returns or
propagates exactly on the exit paths that begin after `_open_connection`
returned successfully — normal completion of the `with`-body or an exception
raised by the body; whenever the session is not closed, `_open_connection`
itself failed (and on those failure paths after session establishment, such as
`USE DATABASE`/`USE SCHEMA` errors, the session leaks). -/
theorem c4_closed_iff_open_succeeded (e : EnvVars) (drv : DriverEnv) (db : String)
    (schema : Option String) (bodyOk : Bool) :
    ((openConnection e drv db schema).1 = .ok () →
        (connect e drv db schema bodyOk).closed = true)
  ∧ ((connect e drv db schema bodyOk).closed = false →
        ∃ err, (openConnection e drv db schema).1 = .error err) := by
  rcases h : openConnection e drv db schema with ⟨outcome, opened⟩
  rcases outcome with err | u
  · exact ⟨fun hok => by simp at hok, fun _ => ⟨err, rfl⟩⟩
  · refine ⟨fun _ => ?_, fun hclosed => ?_⟩
    · simp [connect, h]
    · simp [connect, h] at hclosed

/-- Witness for C4 amended: with a fully healthy environment the session is
closed even when the `with`-body raises. -/
theorem c4_closed_iff_open_succeeded_witness :
    (openConnection ⟨some "r", some "u", some "p", some "w", none⟩
        ⟨true, true, true, true, true⟩ "DB" none).1 = .ok ()
  ∧ (connect ⟨some "r", some "u", some "p", some "w", none⟩
        ⟨true, true, true, true, true⟩ "DB" none false).closed = true :=
  ⟨rfl,
   (c4_closed_iff_open_succeeded ⟨some "r", some "u", some "p", some "w", none⟩
      ⟨true, true, true, true, true⟩ "DB" none false).1 rfl⟩

theorem except_bind_ok {ε α β : Type} (a : α) (f : α → Except ε β) :
    (Except.ok a : Except ε α) >>= f = f a := rfl

theorem except_bind_error {ε α β : Type} (er : ε) (f : α → Except ε β) :
    (Except.error er : Except ε α) >>= f = .error er := rfl

theorem lookup_cons_of_ne {β : Type} (k k0 : String) (b : β) (es : List (String × β))
    (h : ¬ k = k0) : List.lookup k ((k0, b) :: es) = List.lookup k es := by
  rw [List.lookup_cons]
  have hb : (k == k0) = false := beq_eq_false_iff_ne.mpr h
  simp [hb]

theorem lookup_eq_none_of_not_mem_keys {β : Type} (l : List (String × β)) (k : String)
    (h : k ∉ l.map Prod.fst) : l.lookup k = none := by
  induction l with
  | nil => rfl
  | cons hd tl ih =>
    obtain ⟨k0, v0⟩ := hd
    simp only [List.map_cons, List.mem_cons, not_or] at h
    rw [lookup_cons_of_ne _ _ _ _ h.1, ih h.2]

theorem lookup_insertAppend (a : List (String × List String)) (k v k' : String) :
    (insertAppend a k v).lookup k' =
      if k' = k then some (((a.lookup k').getD []) ++ [v]) else a.lookup k' := by
  induction a with
  | nil =>
    by_cases h : k' = k
    · subst h; simp [insertAppend, List.lookup_cons_self]
    · rw [show insertAppend [] k v = [(k, [v])] from rfl, lookup_cons_of_ne _ _ _ _ h]
      simp [h]
  | cons hd tl ih =>
    obtain ⟨k0, vs0⟩ := hd
    by_cases h0 : k0 = k
    · subst h0
      have hstep : insertAppend ((k0, vs0) :: tl) k0 v = (k0, vs0 ++ [v]) :: tl := by
        simp [insertAppend]
      rw [hstep]
      by_cases h' : k' = k0
      · subst h'; simp [List.lookup_cons_self]
      · rw [lookup_cons_of_ne _ _ _ _ h', if_neg h', lookup_cons_of_ne _ _ _ _ h']
    · have hstep : insertAppend ((k0, vs0) :: tl) k v = (k0, vs0) :: insertAppend tl k v := by
        have hb : (k0 == k) = false := beq_eq_false_iff_ne.mpr h0
        simp [insertAppend, hb]
      rw [hstep]
      by_cases h' : k' = k0
      · subst h'
        rw [List.lookup_cons_self, if_neg h0, List.lookup_cons_self]
      · rw [lookup_cons_of_ne _ _ _ _ h', ih]
        by_cases hk : k' = k
        · rw [if_pos hk, if_pos hk, lookup_cons_of_ne _ _ _ _ h']
        · rw [if_neg hk, if_neg hk, lookup_cons_of_ne _ _ _ _ h']

theorem lookup_addRow (kvs : List (String × String)) (acc : List (String × List String))
    (k : String) (hnd : (kvs.map Prod.fst).Nodup) :
    ((addRow acc kvs).lookup k).getD [] =
      ((acc.lookup k).getD []) ++ (kvs.lookup k).toList := by
  induction kvs generalizing acc with
  | nil => simp [addRow]
  | cons hd tl ih =>
    obtain ⟨k0, v0⟩ := hd
    have hnd' := (List.nodup_cons.mp hnd).2
    have hk0 : k0 ∉ tl.map Prod.fst := (List.nodup_cons.mp hnd).1
    have hstep : addRow acc ((k0, v0) :: tl) = addRow (insertAppend acc k0 v0) tl := rfl
    rw [hstep, ih _ hnd', lookup_insertAppend]
    by_cases hk : k = k0
    · subst hk
      have htl : tl.lookup k = none := lookup_eq_none_of_not_mem_keys tl k hk0
      rw [if_pos rfl, List.lookup_cons_self]
      simp [htl]
    · rw [if_neg hk, lookup_cons_of_ne _ _ _ _ hk]

theorem accumRows_go_ok (rows : List ERow) :
    ∀ acc, (∀ row ∈ rows, goodRow row = true) →
      ∃ out, rows.foldlM accumStep acc = .ok out ∧
        ∀ k, ((out.lookup k).getD []) = ((acc.lookup k).getD []) ++ expectedColumn rows k := by
  induction rows with
  | nil => exact fun acc _ => ⟨acc, rfl, fun k => by simp [expectedColumn]⟩
  | cons row tl ih =>
    intro acc hgood
    match row with
    | .nondict => exact absurd (hgood _ (List.mem_cons_self _ _)) (by simp [goodRow])
    | .dict kvs =>
      have hnd : (kvs.map Prod.fst).Nodup := by
        have := hgood _ (List.mem_cons_self _ _)
        simpa [goodRow] using this
      obtain ⟨out, hout, hlook⟩ :=
        ih (addRow acc kvs) (fun r hr => hgood r (List.mem_cons_of_mem _ hr))
      refine ⟨out, ?_, fun k => ?_⟩
      · rw [List.foldlM_cons,
          show accumStep acc (ERow.dict kvs) = Except.ok (addRow acc kvs) from rfl,
          except_bind_ok]
        exact hout
      · rw [hlook k, lookup_addRow _ _ _ hnd, List.append_assoc]
        congr 1
        simp only [expectedColumn, List.filterMap_cons]
        cases hx : List.lookup k kvs <;> simp [hx]

theorem accumRows_go_nondict (rows : List ERow) :
    ∀ acc, ERow.nondict ∈ rows → rows.foldlM accumStep acc = .error .dataShape := by
  induction rows with
  | nil => intro acc h; simp at h
  | cons row tl ih =>
    intro acc h
    match row with
    | .nondict =>
      rw [List.foldlM_cons,
        show accumStep acc ERow.nondict = Except.error ExecErr.dataShape from rfl,
        except_bind_error]
    | .dict kvs =>
      have hmem : ERow.nondict ∈ tl := by
        rcases List.mem_cons.mp h with h' | h'
        · exact absurd h' (by simp)
        · exact h'
      rw [List.foldlM_cons,
        show accumStep acc (ERow.dict kvs) = Except.ok (addRow acc kvs) from rfl,
        except_bind_ok]
      exact ih _ hmem

theorem execute_some_warehouse (driver : String → ExecOutcome) (e : EnvVars)
    (w q : String) :
    execute driver e (some w) q =
      (liftDriverFailure (driver q)).bind accumRows := by
  rcases h : driver q with rows | m | m <;>
    simp [execute, h, liftDriverFailure, except_bind_ok, except_bind_error, Except.bind]

/-- Claim C5 amended: with a warehouse attached to the connection, `execute`
raises the `Query Error` `ValueError` exactly when the driver raises a
`ProgrammingError` (wrapping its message); any other driver exception kind
propagates unwrapped; a result containing a non-dict row raises the data-shape
error; and on a success whose rows are all dicts it returns the mapping from
column name to that column's values with row order preserved. -/
theorem c5_query_error_policy (driver : String → ExecOutcome) (e : EnvVars)
    (w q : String) :
    (∀ m, driver q = .failProgramming m →
        execute driver e (some w) q = .error (.queryError ("Query Error: " ++ m)))
  ∧ (∀ m, driver q = .failOther m →
        execute driver e (some w) q = .error (.driverOther m))
  ∧ (∀ rows, driver q = .ok rows → ERow.nondict ∈ rows →
        execute driver e (some w) q = .error .dataShape)
  ∧ (∀ rows, driver q = .ok rows → (∀ row ∈ rows, goodRow row = true) →
        ∃ out, execute driver e (some w) q = .ok out ∧
          ∀ k, ((out.lookup k).getD []) = expectedColumn rows k) := by
  refine ⟨fun m hm => ?_, fun m hm => ?_, fun rows hr hnd => ?_, fun rows hr hgood => ?_⟩
  · rw [execute_some_warehouse, hm]; rfl
  · rw [execute_some_warehouse, hm]; rfl
  · rw [execute_some_warehouse, hr]
    exact accumRows_go_nondict rows [] hnd
  · obtain ⟨out, hout, hlook⟩ := accumRows_go_ok rows [] hgood
    refine ⟨out, ?_, fun k => by simpa using hlook k⟩
    rw [execute_some_warehouse, hr]
    exact hout

/-- Witness for C5 amended: a concrete two-row result is turned into the
column-name-to-values mapping with row order preserved. -/
theorem c5_query_error_policy_witness :
    ∃ out,
      execute (fun _ => .ok [.dict [("a", "1"), ("b", "2")], .dict [("a", "3")]])
          ⟨none, none, none, none, none⟩ (some "WH") "select 1" = .ok out
    ∧ ∀ k, ((out.lookup k).getD []) =
        expectedColumn [.dict [("a", "1"), ("b", "2")], .dict [("a", "3")]] k :=
  (c5_query_error_policy (fun _ => .ok [.dict [("a", "1"), ("b", "2")], .dict [("a", "3")]])
      ⟨none, none, none, none, none⟩ "WH" "select 1").2.2.2
    [.dict [("a", "1"), ("b", "2")], .dict [("a", "3")]] rfl (by decide)

/-- Claim C5 as stated is false: only `ProgrammingError` is wrapped into the
`Query Error` `ValueError`; any other driver exception kind propagates unwrapped,
so not every execution failure surfaces as a QueryError. -/
theorem c5_counterexample_other_failure_not_wrapped :
    execute (fun _ => .failOther "driver lost connection")
        ⟨none, none, none, none, none⟩ (some "WH") "select 1"
      = .error (.driverOther "driver lost connection")
  ∧ isQueryError
      (execute (fun _ => .failOther "driver lost connection")
        ⟨none, none, none, none, none⟩ (some "WH") "select 1") = false :=
  ⟨rfl, rfl⟩

theorem strLt_iff_lt (a b : String) : strLt a b ↔ @LT.lt String String.instLT a b := by
  unfold strLt
  exact String.lt_iff.symm

theorem eq_of_perm_of_pairwise_keyLt {α : Type} :
    ∀ {l₁ l₂ : List (Nat × α)}, l₁.Perm l₂ →
      l₁.Pairwise keyLt → l₂.Pairwise keyLt → l₁ = l₂ := by
  intro l₁
  induction l₁ with
  | nil => intro l₂ hp _ _; exact hp.nil_eq
  | cons a t ih =>
    intro l₂ hp h₁ h₂
    match l₂ with
    | [] => exact absurd hp.symm.nil_eq (by simp)
    | b :: t₂ =>
      have hab : a = b := by
        have ha : a ∈ b :: t₂ := hp.mem_iff.mp (List.mem_cons_self a t)
        rcases List.mem_cons.mp ha with h | h
        · exact h
        · have hba : b.1 < a.1 := (List.pairwise_cons.mp h₂).1 a h
          have hb : b ∈ a :: t := hp.symm.mem_iff.mp (List.mem_cons_self b t₂)
          rcases List.mem_cons.mp hb with h' | h'
          · exact absurd (h' ▸ hba) (lt_irrefl _)
          · exact absurd hba (Nat.lt_asymm ((List.pairwise_cons.mp h₁).1 b h'))
      subst hab
      rw [ih hp.cons_inv (List.pairwise_cons.mp h₁).2 (List.pairwise_cons.mp h₂).2]

theorem insertionSort_eq_of_perm_canonical {α : Type} (l canonical : List (Nat × α))
    (hp : l.Perm canonical) (hc : canonical.Pairwise keyLt) :
    l.insertionSort keyLE = canonical := by
  have hperm : (l.insertionSort keyLE).Perm canonical :=
    (List.perm_insertionSort keyLE l).trans hp
  have hsorted : List.Sorted keyLE (l.insertionSort keyLE) :=
    List.sorted_insertionSort keyLE l
  have hcanodup : (canonical.map Prod.fst).Nodup := by
    have h1 : (canonical.map Prod.fst).Pairwise (· < ·) := List.pairwise_map.mpr hc
    exact h1.imp fun h => Nat.ne_of_lt h
  have hsnodup : ((l.insertionSort keyLE).map Prod.fst).Nodup :=
    (hperm.map Prod.fst).nodup_iff.mpr hcanodup
  have hslt : (l.insertionSort keyLE).Pairwise keyLt := by
    have hne : (l.insertionSort keyLE).Pairwise (fun a b => a.1 ≠ b.1) :=
      List.pairwise_map.mp hsnodup
    exact (hsorted.and hne).imp fun h => Nat.lt_of_le_of_ne h.1 h.2
  exact eq_of_perm_of_pairwise_keyLt hperm hslt hc

theorem getTableRepresentation_of_perm (oracle : String → QueryOutcome)
    (s t : String) (ti : Nat) (ndv : Int) (r0 : ColRow) (rest : List ColRow)
    (w : Nat) (hw : w ≠ 0) (c : List (Nat × ColRow))
    (hc : c.Perm (r0 :: rest).enum) :
    getTableRepresentation oracle s t ti ndv (r0 :: rest) w c =
      some ⟨ti, t, r0.tableComment,
        (r0 :: rest).enum.map fun p => getCol oracle s t ndv p.1 p.2⟩ := by
  have hcanon : ((r0 :: rest).enum.map
      (fun p : Nat × ColRow => (p.1, getCol oracle s t ndv p.1 p.2))).Pairwise keyLt := by
    refine List.pairwise_map.mpr ?_
    have h1 : ((r0 :: rest).enum.map Prod.fst).Pairwise (· < ·) := by
      rw [List.enum_map_fst]; exact List.pairwise_lt_range _
    exact (List.pairwise_map.mp h1).imp fun h => h
  have hsort := insertionSort_eq_of_perm_canonical
    (c.map fun p : Nat × ColRow => (p.1, getCol oracle s t ndv p.1 p.2))
    ((r0 :: rest).enum.map fun p : Nat × ColRow => (p.1, getCol oracle s t ndv p.1 p.2))
    (hc.map _) hcanon
  show (if w = 0 then none
    else some (Table.mk ti t r0.tableComment
      (((c.map fun p : Nat × ColRow =>
          (p.1, getCol oracle s t ndv p.1 p.2)).insertionSort keyLE).map Prod.snd))) =
    some (Table.mk ti t r0.tableComment
      ((r0 :: rest).enum.map fun p => getCol oracle s t ndv p.1 p.2))
  rw [if_neg hw, hsort, List.map_map]
  simp [Function.comp]

/-- Claim C1: for every input column row-set, the `Table` returned by
`get_table_representation` has its column sequence in catalog ordinal order
(each `Column` built from the row at its own enumeration index), for every
permutation of task completion order and every `max_workers >= 1`; in
particular the output is the same for any two worker counts and completion
orders on the same input. -/
theorem c1_columns_in_ordinal_order (oracle : String → QueryOutcome)
    (s t : String) (ti : Nat) (ndv : Int) (rows : List ColRow)
    (w₁ w₂ : Nat) (c₁ c₂ : List (Nat × ColRow))
    (h₁ : c₁.Perm rows.enum) (h₂ : c₂.Perm rows.enum)
    (hw₁ : 1 ≤ w₁) (hw₂ : 1 ≤ w₂) :
    getTableRepresentation oracle s t ti ndv rows w₁ c₁ =
      getTableRepresentation oracle s t ti ndv rows w₂ c₂
  ∧ ∀ tbl, getTableRepresentation oracle s t ti ndv rows w₁ c₁ = some tbl →
      tbl.columns = rows.enum.map fun p => getCol oracle s t ndv p.1 p.2 := by
  match rows with
  | [] =>
    refine ⟨rfl, fun tbl h => ?_⟩
    have h' : (none : Option Table) = some tbl := h
    exact absurd h' (by simp)
  | r0 :: rest =>
    rw [getTableRepresentation_of_perm oracle s t ti ndv r0 rest w₁ (by omega) c₁ h₁,
      getTableRepresentation_of_perm oracle s t ti ndv r0 rest w₂ (by omega) c₂ h₂]
    refine ⟨rfl, fun tbl h => ?_⟩
    rw [← Option.some.inj h]

/-- Witness for C1: a concrete two-column table assembled with `max_workers = 1`
and in-order completion equals the one assembled with `max_workers = 4` and
reversed completion. -/
theorem c1_columns_in_ordinal_order_witness :
    getTableRepresentation (fun n => if n == "A" then .err else .ok [.dict [(n, "x")]])
        "S" "T" 7 1 [⟨"A", "", "TEXT", "tc"⟩, ⟨"B", "", "TEXT", "tc"⟩] 1
        ([⟨"A", "", "TEXT", "tc"⟩, ⟨"B", "", "TEXT", "tc"⟩] : List ColRow).enum
      = getTableRepresentation (fun n => if n == "A" then .err else .ok [.dict [(n, "x")]])
        "S" "T" 7 1 [⟨"A", "", "TEXT", "tc"⟩, ⟨"B", "", "TEXT", "tc"⟩] 4
        ([⟨"A", "", "TEXT", "tc"⟩, ⟨"B", "", "TEXT", "tc"⟩] : List ColRow).enum.reverse :=
  (c1_columns_in_ordinal_order (fun n => if n == "A" then .err else .ok [.dict [(n, "x")]])
    "S" "T" 7 1 [⟨"A", "", "TEXT", "tc"⟩, ⟨"B", "", "TEXT", "tc"⟩] 1 4
    ([⟨"A", "", "TEXT", "tc"⟩, ⟨"B", "", "TEXT", "tc"⟩] : List ColRow).enum
    ([⟨"A", "", "TEXT", "tc"⟩, ⟨"B", "", "TEXT", "tc"⟩] : List ColRow).enum.reverse
    (List.Perm.refl _) (List.reverse_perm _) (by decide) (by decide)).1

/-- Claim C2: if sampling fails for exactly one column `j` among `N` while every
other column samples successfully, `get_table_representation` still returns a
`Table` (no exception escapes assembly) in which column `j` carries an absent
sample sequence and every other column retains its sampled values. -/
theorem c2_single_failure_isolated (oracle : String → QueryOutcome)
    (s t : String) (ti : Nat) (ndv : Int) (hndv : 0 < ndv)
    (rows : List ColRow) (j : Nat) (hj : j < rows.length)
    (w : Nat) (hw : 1 ≤ w) (c : List (Nat × ColRow)) (hc : c.Perm rows.enum)
    (expected : Nat → List String)
    (hfail : oracle ((rows.get ⟨j, hj⟩).columnName) = .err)
    (hok : ∀ i (hi : i < rows.length), i ≠ j →
      sampleValues (oracle ((rows.get ⟨i, hi⟩).columnName)) = some (expected i)) :
    ∃ tbl, getTableRepresentation oracle s t ti ndv rows w c = some tbl
      ∧ tbl.columns.map Column.values =
          (List.range rows.length).map fun i => if i = j then none else some (expected i) := by
  match rows, hj, hfail, hok with
  | r0 :: rest, hj, hfail, hok =>
    refine ⟨_, getTableRepresentation_of_perm oracle s t ti ndv r0 rest w (by omega) c hc, ?_⟩
    have hval : ∀ (i : Nat) (r : ColRow),
        (getCol oracle s t ndv i r).values =
          if ndv > 0 then sampleValues (oracle r.columnName) else none := fun i r => rfl
    show ((r0 :: rest).enum.map fun p => getCol oracle s t ndv p.1 p.2).map Column.values = _
    rw [List.map_map]
    apply List.ext_getElem
    · simp
    · intro i hi1 hi2
      simp only [List.getElem_map, List.getElem_enum, List.getElem_range, Function.comp_apply]
      rw [hval]
      have hilen : i < (r0 :: rest).length := by simpa using hi2
      by_cases hij : i = j
      · subst hij
        rw [if_pos rfl, if_pos hndv]
        have hget : (r0 :: rest).get ⟨i, hj⟩ = (r0 :: rest)[i] := rfl
        rw [hget] at hfail
        rw [hfail]
        rfl
      · rw [if_neg hij, if_pos hndv]
        have hget : (r0 :: rest).get ⟨i, hilen⟩ = (r0 :: rest)[i] := rfl
        have := hok i hilen hij
        rw [hget] at this
        exact this

/-- Witness for C2: two columns, the first failing, the second sampling `"x"`. -/
theorem c2_single_failure_isolated_witness :
    ∃ tbl, getTableRepresentation
        (fun n => if n == "A" then .err else .ok [.dict [(n, "x")]])
        "S" "T" 7 1 [⟨"A", "", "TEXT", "tc"⟩, ⟨"B", "", "TEXT", "tc"⟩] 1
        ([⟨"A", "", "TEXT", "tc"⟩, ⟨"B", "", "TEXT", "tc"⟩] : List ColRow).enum = some tbl
      ∧ tbl.columns.map Column.values =
          (List.range 2).map fun i => if i = 0 then none else some ["x"] :=
  c2_single_failure_isolated (fun n => if n == "A" then .err else .ok [.dict [(n, "x")]])
    "S" "T" 7 1 (by decide) [⟨"A", "", "TEXT", "tc"⟩, ⟨"B", "", "TEXT", "tc"⟩] 0 (by decide)
    1 (by decide) ([⟨"A", "", "TEXT", "tc"⟩, ⟨"B", "", "TEXT", "tc"⟩] : List ColRow).enum
    (List.Perm.refl _) (fun _ => ["x"]) (by decide) (by decide)

/-- Claim C3 as stated is false: the pandas inner merge outputs rows in the
order of the left frame (the live tables-then-views listing), not in a global
schema/table/ordinal sort.  Here the catalog answer is sorted exactly as
`order by 1, 2, c.ordinal_position` guarantees, yet the merged row-set puts
schema `S2` before `S1` because `show tables` listed `S2.T2` first. -/
theorem c3_counterexample_left_order_wins :
    ([⟨"S1", "T1", "C1", "TEXT", "", 1⟩, ⟨"S2", "T2", "C2", "TEXT", "", 1⟩] :
        List CatRow).Pairwise catRowLE
  ∧ ¬ ((getValidSchemasTablesColumnsDf
        (fun _ => [⟨"S1", "T1", "C1", "TEXT", "", 1⟩, ⟨"S2", "T2", "C2", "TEXT", "", 1⟩])
        [⟨"T2", "S2", "tc2"⟩] [⟨"T1", "S1", "tc1"⟩] none none).1.Pairwise catalogLE) := by
  constructor
  · decide
  · decide

/-- Claim C3 amended: the `order by` applies to the information-schema query's
answer, and the subsequent pandas inner merge preserves, for each live
`(schema, table)` key, the relative order of that table's catalog rows; the
overall row order follows the live listing (left frame), not a global sort.
Hence when the live listing has no duplicate `(schema, table)` key and the
catalog answer is ordinal-ordered within each key, any two returned rows of the
same `(schema, table)` appear in ordinal-position order. -/
theorem c3_within_table_ordinal_order (catalog : String → List CatRow)
    (tables views : List TVRow) (ts : Option String) (tn : Option (List String))
    (hleft : (fetchValidTablesAndViews tables views).Pairwise
      (fun a b => ¬(a.tableSchema = b.tableSchema ∧ a.tableName = b.tableName)))
    (hright : (catalog (buildCatalogQuery ts tn)).Pairwise
      (fun a b => (a.tableSchema = b.tableSchema ∧ a.tableName = b.tableName) →
        a.ordinalPosition ≤ b.ordinalPosition)) :
    (getValidSchemasTablesColumnsDf catalog tables views ts tn).1.Pairwise
      (fun a b => (a.tableSchema = b.tableSchema ∧ a.tableName = b.tableName) →
        a.ordinalPosition ≤ b.ordinalPosition) := by
  show ((fetchValidTablesAndViews tables views).flatMap _).Pairwise _
  refine List.pairwise_flatMap.mpr ⟨?_, ?_⟩
  · intro l _
    refine List.pairwise_map.mpr ?_
    refine List.Pairwise.imp_of_mem ?_ (List.Pairwise.filter _ hright)
    intro r1 r2 h1 h2 hR
    have hp1 := (List.mem_filter.mp h1).2
    have hp2 := (List.mem_filter.mp h2).2
    have hk1 : r1.tableSchema = l.tableSchema ∧ r1.tableName = l.tableName := by
      refine ⟨eq_of_beq ?_, eq_of_beq ?_⟩
      · exact (Bool.and_eq_true _ _ ▸ hp1).1
      · exact (Bool.and_eq_true _ _ ▸ hp1).2
    have hk2 : r2.tableSchema = l.tableSchema ∧ r2.tableName = l.tableName := by
      refine ⟨eq_of_beq ?_, eq_of_beq ?_⟩
      · exact (Bool.and_eq_true _ _ ▸ hp2).1
      · exact (Bool.and_eq_true _ _ ▸ hp2).2
    intro _
    exact hR ⟨hk1.1.trans hk2.1.symm, hk1.2.trans hk2.2.symm⟩
  · refine hleft.imp ?_
    intro l1 l2 hne x hx y hy
    obtain ⟨r1, _, rfl⟩ := List.mem_map.mp hx
    obtain ⟨r2, _, rfl⟩ := List.mem_map.mp hy
    intro hkey
    exact absurd ⟨hkey.1, hkey.2⟩ hne

/-- Witness for C3 amended: a concrete live listing with one table and a
two-column ordinal-sorted catalog answer yields an ordinal-ordered result. -/
theorem c3_within_table_ordinal_order_witness :
    (getValidSchemasTablesColumnsDf
        (fun _ => [⟨"S1", "T1", "C1", "TEXT", "", 1⟩, ⟨"S1", "T1", "C2", "TEXT", "", 2⟩])
        [⟨"T1", "S1", "tc"⟩] [] none none).1.Pairwise
      (fun a b => (a.tableSchema = b.tableSchema ∧ a.tableName = b.tableName) →
        a.ordinalPosition ≤ b.ordinalPosition) :=
  c3_within_table_ordinal_order
    (fun _ => [⟨"S1", "T1", "C1", "TEXT", "", 1⟩, ⟨"S1", "T1", "C2", "TEXT", "", 2⟩])
    [⟨"T1", "S1", "tc"⟩] [] none none (by decide) (by decide)

end SnowflakeConnector
